import Mathlib

/-!
Verification development for the Glassdoor job scraper (`gd_scrapper.py`).

The scraper's pure logic is shallowly embedded here: strings are `List Char`,
Python string methods become explicit functions, the regular expressions used
by the scraper are hand-compiled deterministic matchers (each pattern is simple
enough that greedy matching with the one needed alternative is equivalent to
the backtracking semantics), and the asynchronous fetch pipeline becomes a
function of a navigation oracle that says, per link and per attempt, whether
`page.goto` succeeds and which page tree it yields.
-/

set_option maxRecDepth 4000

namespace GD

/-! ### Python string primitives (ASCII-faithful) -/

/-- Python `str.lower` (ASCII range, which covers all markers used by the scraper). -/
def lower (l : List Char) : List Char := l.map Char.toLower

/-- Python `str.upper` (ASCII range). -/
def upper (l : List Char) : List Char := l.map Char.toUpper

/-- Python `str.strip`: drop whitespace from both ends. -/
def strip (l : List Char) : List Char :=
  ((l.dropWhile Char.isWhitespace).reverse.dropWhile Char.isWhitespace).reverse

/-- Python's `needle in hay` substring test. -/
def containsStr : List Char → List Char → Bool
  | [], needle => needle.isEmpty
  | c :: t, needle => needle.isPrefixOf (c :: t) || containsStr t needle

/-- Python `hay.split(pat)[0]`: the characters before the first occurrence of `pat`
(the whole string when `pat` does not occur). -/
def take_before (pat : List Char) : List Char → List Char
  | [] => []
  | c :: t => if pat.isPrefixOf (c :: t) then [] else c :: take_before pat t

/-- The suffix after the first occurrence of `pat` (empty when absent). -/
def after_first (pat : List Char) : List Char → List Char
  | [] => []
  | c :: t => if pat.isPrefixOf (c :: t) then (c :: t).drop pat.length else after_first pat t

/-- Helper for `str.title`: tracks whether the previous character was a letter. -/
def py_title_go : Bool → List Char → List Char
  | _, [] => []
  | prev, c :: t =>
    (if c.isAlpha then (if prev then c.toLower else c.toUpper) else c) :: py_title_go c.isAlpha t

/-- Python's `str.title`. -/
def py_title (l : List Char) : List Char := py_title_go false l

/-! ### Link Collector (`run`, lines 166-176) -/

def base_url : List Char := "https://www.glassdoor.com".data

/-- Lines 171-174: smart scraping limit from the number of discovered links. -/
def scrape_limit (total_found : Nat) : Nat :=
  if total_found ≥ 20 then min 60 total_found else total_found

/-- Line 176 per-link normalization: the link itself when it starts with "http", else `base_url + link`. -/
def absolutize (link : List Char) : List Char :=
  if "http".data.isPrefixOf link then link else base_url ++ link

/-- Line 176: truncate the discovered link list to the scrape limit and make
each link absolute.  (No deduplication is performed anywhere in `run`.) -/
def truncate_links (links : List (List Char)) : List (List Char) :=
  (links.take (scrape_limit links.length)).map absolutize

/-! ### Field Extractor: Location / City / State / Region
(`extract_job_data`, lines 371-387 and 477) -/

def na : List Char := "N/A".data

/-- Lines 377-387: split the (already stripped) location on commas into
City/State; `parts[i]` falls back to `"N/A"` when out of range. -/
def parse_city_state (location : List Char) : List Char × List Char :=
  if containsStr location ",".data then
    let parts := (location.splitOn ',').map strip
    (parts.getD 0 na, parts.getD 1 na)
  else
    (location, na)

/-- Line 477: `region = location if location != "N/A" else
f"\x7bcity\x7d, \x7bstate\x7d" if city != "N/A" and state != "N/A" else "N/A"`. -/
def region_of (location city state : List Char) : List Char :=
  if location ≠ na then location
  else if city ≠ na ∧ state ≠ na then city ++ ", ".data ++ state
  else na

/-! ### Field Extractor: Year (lines 389-398)
The regex `(20\d\x7b2\x7d)` is compiled to: scan left-to-right for the first
position beginning `'2' '0' digit digit`. -/

def year_at (s : List Char) : Option (List Char) :=
  match s with
  | '2' :: '0' :: c :: d :: _ =>
    if c.isDigit && d.isDigit then some ['2', '0', c, d] else none
  | _ => none

/-- Leftmost-match scan: try the anchored matcher at every position, first
success wins (the semantics of `re.search`). -/
def scan_first {α : Type} (m : List Char → Option α) : List Char → Option α
  | [] => m []
  | c :: t =>
    match m (c :: t) with
    | some g => some g
    | none => scan_first m t

/-- Lines 390-398: first `20\d\d` token anywhere in the page text. -/
def extract_year (page_text : List Char) : List Char :=
  match scan_first year_at page_text with
  | some y => y
  | none => na

/-! ### Regex building blocks for the salary and experience patterns.

Each pattern below uses greedy matching for `\d+`, `\s*`, `\s+` and the
optional single characters; for these particular patterns greediness is
equivalent to Python's backtracking semantics, because in every case the
character class of the greedy piece is disjoint from the literal that
follows it.  The one genuinely optional group, `(of\s*)?`, is compiled
with an explicit two-way alternative. -/

/-- Consume a literal string. -/
def lit : List Char → List Char → Option (List Char)
  | [], s => some s
  | c :: cs, s =>
    match s with
    | [] => none
    | x :: xs => if x = c then lit cs xs else none

/-- Consume an optional single character (`c?`). -/
def opt_char (c : Char) : List Char → List Char
  | [] => []
  | x :: xs => if x = c then xs else x :: xs

/-- Piece `\s*`. -/
def ws0 (s : List Char) : List Char := s.dropWhile Char.isWhitespace

/-- Piece `\s+`. -/
def ws1 : List Char → Option (List Char)
  | [] => none
  | x :: xs => if x.isWhitespace then some (xs.dropWhile Char.isWhitespace) else none

/-- Piece `(\d+)`: one or more digits, greedily, returning the digits and rest. -/
def digits1 (s : List Char) : Option (List Char × List Char) :=
  let ds := s.takeWhile Char.isDigit
  if ds.isEmpty then none else some (ds, s.drop ds.length)

/-! ### Field Extractor: Salary (`extract_job_data`, lines 400-427) -/

/-- Pattern `minimum salary is \$(\d+)K` anchored at the head; yields the digits. -/
def min_at (s : List Char) : Option (List Char) := do
  let r0 ← lit "minimum salary is $".data s
  let (ds, r1) ← digits1 r0
  let _ ← lit "K".data r1
  pure ds

/-- Pattern `max salary is \$(\d+)K` anchored at the head; yields the digits. -/
def max_at (s : List Char) : Option (List Char) := do
  let r0 ← lit "max salary is $".data s
  let (ds, r1) ← digits1 r0
  let _ ← lit "K".data r1
  pure ds

/-- Line 424: the fixed list of trailing location artifacts. -/
def location_artifacts : List (List Char) :=
  ["Boston, MA".data, "New York, NY".data, "Hyderabad, India".data, "San Francisco, CA".data]

/-- Lines 423-427: for the first artifact contained in the text, keep only
what precedes it (stripped) and stop; otherwise leave the text unchanged. -/
def strip_artifacts : List (List Char) → List Char → List Char
  | [], s => s
  | p :: ps, s => if containsStr s p then strip (take_before p s) else strip_artifacts ps s

/-- Lines 410-427: salary formatting from the (already stripped) matched
salary text. -/
def extract_salary (salary_text : List Char) : List Char :=
  match scan_first min_at salary_text, scan_first max_at salary_text with
  | some mn, some mx => '$' :: (mn ++ "K - $".data ++ mx ++ "K".data)
  | some mn, none => '$' :: (mn ++ "K".data)
  | none, _ => strip_artifacts location_artifacts (salary_text.take 100)

/-! ### Field Extractor: Currency (`extract_job_data`, lines 429-474)

The source is a chain of `if`/`elif` membership tests on the (formatted)
salary string, with `currency = "USD"` as the initial default; the chain is
transcribed literally in `detect_currency`.  For the claim that this is a
first-match-wins lookup over an ordered marker table, the table itself is
defined separately (`currency_markers`) and relates to the chain by proof. -/

/-- Lines 429-474 transcribed: the literal if/elif chain.  The final `else`
branch is the untouched initializer `currency = "USD"`. -/
def detect_currency (salary : List Char) : List Char :=
  if containsStr salary "$".data then "USD".data
  else if containsStr salary "€".data then "EUR".data
  else if containsStr salary "£".data then "GBP".data
  else if containsStr salary "¥".data then "JPY".data
  else if containsStr salary "₹".data || containsStr (upper salary) "INR".data then "INR".data
  else if containsStr (upper salary) "CAD".data then "CAD".data
  else if containsStr (upper salary) "AUD".data then "AUD".data
  else if containsStr (upper salary) "CHF".data then "CHF".data
  else if containsStr (upper salary) "SEK".data then "SEK".data
  else if containsStr (upper salary) "NOK".data then "NOK".data
  else if containsStr (upper salary) "DKK".data then "DKK".data
  else if containsStr (upper salary) "PLN".data then "PLN".data
  else if containsStr (upper salary) "CZK".data then "CZK".data
  else if containsStr (upper salary) "HUF".data then "HUF".data
  else if containsStr (upper salary) "RUB".data then "RUB".data
  else if containsStr (upper salary) "BRL".data then "BRL".data
  else if containsStr (upper salary) "MXN".data then "MXN".data
  else if containsStr (upper salary) "ZAR".data then "ZAR".data
  else if containsStr (upper salary) "KRW".data then "KRW".data
  else if containsStr (upper salary) "SGD".data then "SGD".data
  else if containsStr (upper salary) "HKD".data then "HKD".data
  else if containsStr (upper salary) "NZD".data then "NZD".data
  else "USD".data

/-- One entry of the currency marker table: the marker pattern, whether it is
a symbol (matched on the raw text) or a 3-letter code (matched on the
uppercased text), and the resulting currency. -/
structure Marker where
  pattern : List Char
  isSymbol : Bool
  code : List Char

/-- Modelled from the spec's description of the detection as an ordered
marker table, symbol entries first, then 3-letter-code entries; compared
with the source chain `detect_currency` by theorem. -/
def currency_markers : List Marker :=
  [⟨"$".data, true, "USD".data⟩,
   ⟨"€".data, true, "EUR".data⟩,
   ⟨"£".data, true, "GBP".data⟩,
   ⟨"¥".data, true, "JPY".data⟩,
   ⟨"₹".data, true, "INR".data⟩,
   ⟨"INR".data, false, "INR".data⟩,
   ⟨"CAD".data, false, "CAD".data⟩,
   ⟨"AUD".data, false, "AUD".data⟩,
   ⟨"CHF".data, false, "CHF".data⟩,
   ⟨"SEK".data, false, "SEK".data⟩,
   ⟨"NOK".data, false, "NOK".data⟩,
   ⟨"DKK".data, false, "DKK".data⟩,
   ⟨"PLN".data, false, "PLN".data⟩,
   ⟨"CZK".data, false, "CZK".data⟩,
   ⟨"HUF".data, false, "HUF".data⟩,
   ⟨"RUB".data, false, "RUB".data⟩,
   ⟨"BRL".data, false, "BRL".data⟩,
   ⟨"MXN".data, false, "MXN".data⟩,
   ⟨"ZAR".data, false, "ZAR".data⟩,
   ⟨"KRW".data, false, "KRW".data⟩,
   ⟨"SGD".data, false, "SGD".data⟩,
   ⟨"HKD".data, false, "HKD".data⟩,
   ⟨"NZD".data, false, "NZD".data⟩]

/-- Whether one marker matches the salary text. -/
def marker_matches (salary : List Char) (m : Marker) : Bool :=
  if m.isSymbol then containsStr salary m.pattern else containsStr (upper salary) m.pattern

/-- First-match-wins lookup over the marker table, defaulting to USD. -/
def table_currency (salary : List Char) : List Char :=
  match currency_markers.find? (marker_matches salary) with
  | some m => m.code
  | none => "USD".data

/-! ### Field Extractor: Years of Experience (lines 479-511)

The five patterns of `exp_patterns`, compiled one by one.  Each matcher is
anchored at the head of its input (already lowercased, for `re.IGNORECASE`)
and returns the tuple of captured groups, in declaration order, as
`Option (List Char)` values (`none` for an unmatched optional group) —
exactly what `match.groups()` yields. -/

/-- Groups of one regex match: `match.groups()`. -/
def Groups : Type := List (Option (List Char))

/-- Pattern 1: `(\d+)\+?\s*years?\s*of?\s*experience`. -/
def p1_at (s : List Char) : Option Groups := do
  let (ds, r0) ← digits1 s
  let r1 := opt_char '+' r0
  let r2 := ws0 r1
  let r3 ← lit "year".data r2
  let r4 := opt_char 's' r3
  let r5 := ws0 r4
  let r6 ← lit "o".data r5
  let r7 := opt_char 'f' r6
  let r8 := ws0 r7
  let _ ← lit "experience".data r8
  pure [some ds]

/-- Pattern 2: `minimum\s+of?\s*(\d+)\s*years?`. -/
def p2_at (s : List Char) : Option Groups := do
  let r0 ← lit "minimum".data s
  let r1 ← ws1 r0
  let r2 ← lit "o".data r1
  let r3 := opt_char 'f' r2
  let r4 := ws0 r3
  let (ds, r5) ← digits1 r4
  let r6 := ws0 r5
  let r7 ← lit "year".data r6
  let _ := opt_char 's' r7
  pure [some ds]

/-- Pattern 3: `at\s+least\s+(\d+)\s*years?`. -/
def p3_at (s : List Char) : Option Groups := do
  let r0 ← lit "at".data s
  let r1 ← ws1 r0
  let r2 ← lit "least".data r1
  let r3 ← ws1 r2
  let (ds, r4) ← digits1 r3
  let r5 := ws0 r4
  let r6 ← lit "year".data r5
  let _ := opt_char 's' r6
  pure [some ds]

/-- The optional third piece shared by patterns 4 and 5:
`(of\s*)?experience`.  Returns the optional group's captured text and the
rest after `experience`; tries the variant with the group first, exactly as
a backtracking engine would for a greedy optional group. -/
def of_experience (s : List Char) : Option (Option (List Char) × List Char) :=
  match (do
    let ra ← lit "of".data s
    let sps := ra.takeWhile Char.isWhitespace
    let rb := ra.dropWhile Char.isWhitespace
    let rc ← lit "experience".data rb
    pure ("of".data ++ sps, rc) : Option (List Char × List Char)) with
  | some (g, rest) => some (some g, rest)
  | none =>
    match lit "experience".data s with
    | some rest => some (none, rest)
    | none => none

/-- Pattern 4: `(\d+)[-–](\d+)\s*years?\s*(of\s*)?experience`
(three declared groups, so `match.groups()` has length 3). -/
def p4_at (s : List Char) : Option Groups := do
  let (d1, r0) ← digits1 s
  let r1 ← (match r0 with
    | x :: xs => if x = '-' || x = '–' then some xs else none
    | [] => none)
  let (d2, r2) ← digits1 r1
  let r3 := ws0 r2
  let r4 ← lit "year".data r3
  let r5 := opt_char 's' r4
  let r6 := ws0 r5
  let (g3, _) ← of_experience r6
  pure [some d1, some d2, g3]

/-- Pattern 5: `(\d+)\s*years?\s*(of\s*)?experience` (two declared groups). -/
def p5_at (s : List Char) : Option Groups := do
  let (d1, r0) ← digits1 s
  let r1 := ws0 r0
  let r2 ← lit "year".data r1
  let r3 := opt_char 's' r2
  let r4 := ws0 r3
  let (g2, _) ← of_experience r4
  pure [some d1, g2]

/-- Python `str.isdigit` on an optional captured group, as used in
`g and g.isdigit()`: an unmatched group counts as falsy. -/
def group_digits : Option (List Char) → Bool
  | some g => !g.isEmpty && g.all Char.isDigit
  | none => false

/-- Lines 500-507, the per-match group logic: if there are exactly two
captured groups and both are numeric, format as an `N-M years` range; else
if the first group exists and is numeric, format as `N+ years`; else no
result from this match. -/
def format_groups (gs : Groups) : Option (List Char) :=
  let g0 := (gs.getD 0 none)
  let g1 := (gs.getD 1 none)
  if gs.length == 2 && gs.all group_digits then
    some ((g0.getD []) ++ "-".data ++ (g1.getD []) ++ " years".data)
  else if decide (1 ≤ gs.length) && group_digits g0 then
    some ((g0.getD []) ++ "+ years".data)
  else none

/-- The ordered pattern list of line 490 (`exp_patterns`). -/
def exp_patterns : List (List Char → Option Groups) :=
  [p1_at, p2_at, p3_at, p4_at, p5_at]

/-- Lines 498-509: try the patterns in priority order; for the first pattern
that matches at all, apply the group logic to its leftmost match.  (In the
source the loop would go on to later matches of the same pattern when the
group logic yields nothing, but group 1 of every pattern is a mandatory
`(\d+)`, so the second branch of the group logic always fires on the
leftmost match and the continuation is dead.) -/
def years_from (t : List Char) : List (List Char → Option Groups) → List Char
  | [] => na
  | p :: ps =>
    match (scan_first p t).bind format_groups with
    | some y => y
    | none => years_from t ps

/-- Lines 479-511: years-of-experience extraction from the description text
(lowercased, modelling `re.IGNORECASE`). -/
def extract_years (text : List Char) : List Char :=
  years_from (lower text) exp_patterns

/-! ### Field Extractor: Company fallback from the URL (lines 345-368) -/

def job_listing_sep : List Char := "/job-listing/".data

/-- Lines 345-367: when every company selector fails, derive the company
name from the URL.  Python's `split(sep)[1]` is the segment between the
first and second occurrence of `sep`; `split(sep)[0]` is the prefix before
the first occurrence. -/
def company_from_url (link : List Char) : List (List Char) :=
  if containsStr link job_listing_sep && containsStr link "-JV_".data then
    let url_part := take_before "-JV_".data (take_before job_listing_sep (after_first job_listing_sep link))
    let words := url_part.splitOn '-'
    if words.length > 2 then
      [py_title (List.intercalate " ".data (words.drop (words.length - 2)))]
    else []
  else if containsStr link job_listing_sep then
    let url_part := take_before "?".data (take_before job_listing_sep (after_first job_listing_sep link))
    let words := url_part.splitOn '-'
    if words.length > 2 then
      [py_title (List.intercalate " ".data (words.drop (words.length - 2)))]
    else []
  else []

/-! ### The Field Extractor proper (`extract_job_data`, lines 326-525)

The lxml tree is modelled as the ordered results of the xpath selector
chains that `extract_job_data` consults: one list of selector results per
field chain (each `if not X: X = tree.xpath(...)` cascade becomes
`first_nonempty`), plus the full visible page text.  In the source the
requirements chain falls back to the full page text as its final stage. -/

structure PageData where
  role_selectors : List (List (List Char))
  company_selectors : List (List (List Char))
  location_selectors : List (List (List Char))
  salary_selectors : List (List (List Char))
  description_selectors : List (List (List Char))
  page_text : List (List Char)
deriving DecidableEq

/-- The first selector result that is non-empty (the `if not X` cascade). -/
def first_nonempty : List (List (List Char)) → List (List Char)
  | [] => []
  | c :: rest => if c.isEmpty then first_nonempty rest else c

/-- Idiom `elements[0].strip() if elements else "N/A"`. -/
def first_or_na : List (List Char) → List Char
  | [] => na
  | e :: _ => strip e

/-- The unit of output: one row of the scraper's CSV. -/
structure JobRecord where
  Name : List Char
  Company : List Char
  State : List Char
  City : List Char
  Salary : List Char
  Location : List Char
  Currency : List Char
  Region : List Char
  YearsOfExperience : List Char
  Year : List Char
  Url : List Char
deriving DecidableEq

/-- Lines 326-525: assemble a `JobRecord` from the page tree and the link. -/
def extract_job_data (tree : PageData) (link : List Char) : JobRecord :=
  let role := first_or_na (first_nonempty tree.role_selectors)
  let selector_companies := first_nonempty tree.company_selectors
  let company_elements :=
    if selector_companies.isEmpty then company_from_url link else selector_companies
  let company_name := first_or_na company_elements
  let location := first_or_na (first_nonempty tree.location_selectors)
  let cs := parse_city_state location
  let city := cs.1
  let state := cs.2
  let year := extract_year (List.intercalate " ".data tree.page_text)
  let salary_elements := first_nonempty tree.salary_selectors
  let salary :=
    if salary_elements.isEmpty then na
    else extract_salary (strip (List.intercalate " ".data salary_elements))
  let currency := detect_currency salary
  let region := region_of location city state
  let requirements := first_nonempty (tree.description_selectors ++ [tree.page_text])
  let years := extract_years (List.intercalate " ".data requirements)
  ⟨role, company_name, state, city, salary, location, currency, region, years, year, link⟩

/-! ### Job Fetcher (`process_single_job`, lines 294-323)

Navigation is an oracle `nav : Nat → Option PageData` giving, per attempt
index, whether `page.goto` succeeds and which tree the rendered content
parses to.  The outcome records the returned value, the number of `goto`
attempts made, and how many page resources were opened and closed. -/

def max_retries : Nat := 3

def batch_size : Nat := 5

/-- Lines 300-308, the retry loop: at most `remaining` further attempts
starting at index `attempt`; returns the first successful content (if any)
and the number of attempts actually made. -/
def nav_result (nav : Nat → Option PageData) : Nat → Nat → Option PageData × Nat
  | _, 0 => (none, 0)
  | attempt, r + 1 =>
    match nav attempt with
    | some c => (some c, 1)
    | none =>
      let p := nav_result nav (attempt + 1) r
      (p.1, p.2 + 1)

structure SingleOutcome where
  result : Option JobRecord
  attempts : Nat
  pages_opened : Nat
  pages_closed : Nat
deriving DecidableEq

/-- Lines 294-323: open one page, retry navigation up to `max_retries`
times, extract on success and close the page; on exhaustion the raised
error is caught by the outer handler, which returns `None` — the page is
closed only on the success path (there is no `finally`). -/
def process_single_job (nav : Nat → Option PageData) (link : List Char) : SingleOutcome :=
  match nav_result nav 0 max_retries with
  | (some tree, n) => ⟨some (extract_job_data tree link), n, 1, 1⟩
  | (none, n) => ⟨none, n, 1, 0⟩

/-- Lines 271-291: run every job of the batch (results in task order) and
keep the successful records, skipping `None` and failures. -/
def process_batch (nav : List Char → Nat → Option PageData) (links : List (List Char)) :
    List JobRecord :=
  (links.map (fun l => (process_single_job (nav l) l).result)).reduceOption

/-- Lines 189-190: consecutive slices `links[i:i+batch_size]` for
`batch_size = 5`, written out structurally (a slice per five elements, the
remainder as the final slice). -/
def chunks {α : Type} : List α → List (List α)
  | [] => []
  | a :: b :: c :: d :: e :: rest => [a, b, c, d, e] :: chunks rest
  | l => [l]

/-- Lines 189-200: the Batch Scheduler's aggregate output — each batch's
successful records, concatenated in batch order. -/
def run_output (nav : List Char → Nat → Option PageData) (links : List (List Char)) :
    List JobRecord :=
  ((chunks links).map (process_batch nav)).flatten

/-! ### Location Filter (`filter_jobs_by_location`, lines 219-268) -/

def canada_keywords : List (List Char) :=
  ["canada".data, "toronto".data, "vancouver".data, "montreal".data, "calgary".data,
   "ottawa".data, "edmonton".data, "winnipeg".data, "quebec".data, "on".data, "bc".data,
   "qc".data, "ab".data, "mb".data, "sk".data]

/-- Lines 224-249: the place → expected-keyword lookup.  `none` encodes the
"too broad, don't filter" early return of the United States branch. -/
def expected_keywords (place : List Char) : Option (List (List Char)) :=
  let pl := lower place
  if containsStr pl "canada".data then some canada_keywords
  else if containsStr pl "united states".data || containsStr pl "usa".data ||
      containsStr pl "us".data then none
  else if containsStr pl "new-york".data || containsStr pl "ny".data then
    some ["new york".data, "nyc".data, "new-york".data, "ny".data]
  else if containsStr pl "boston".data then some ["boston".data, "ma".data]
  else if containsStr pl "hyderabad".data then some ["hyderabad".data]
  else if containsStr pl "mumbai".data then some ["mumbai".data]
  else if containsStr pl "bangalore".data then some ["bangalore".data, "bengaluru".data]
  else some [if containsStr pl "-".data then take_before "-".data pl else pl]

/-- Lines 252-263: a record passes when some keyword is a substring of one
of its lowercased Location, City, Region or State fields. -/
def matches_job (kws : List (List Char)) (job : JobRecord) : Bool :=
  kws.any fun k =>
    containsStr (lower job.Location) k || containsStr (lower job.City) k ||
    containsStr (lower job.Region) k || containsStr (lower job.State) k

/-- Lines 219-268: the Location Filter. -/
def filter_jobs_by_location (job_listings : List JobRecord) (place : List Char) :
    List JobRecord :=
  if job_listings.isEmpty then job_listings
  else
    match expected_keywords place with
    | none => job_listings
    | some kws => job_listings.filter (matches_job kws)

/-! ### Auxiliary definitions used by the proofs -/

/-- The if/elif chain over an arbitrary marker list; relates the source's
hard-coded chain to the marker table. -/
def chain_lookup (s : List Char) : List Marker → List Char
  | [] => "USD".data
  | m :: ms => if marker_matches s m then m.code else chain_lookup s ms

/-- A rendered page on which every selector comes back empty. -/
def empty_page : PageData := ⟨[], [], [], [], [], []⟩

/-- A navigation oracle whose every attempt succeeds with `empty_page`. -/
def ok_nav : List Char → Nat → Option PageData := fun _ _ => some empty_page

/-- A navigation oracle for which the link "b" always fails and every other
link succeeds immediately. -/
def bad_b_nav : List Char → Nat → Option PageData :=
  fun l _ => if l = "b".data then none else some empty_page

/-! ## Helper lemmas -/

/-- The consecutive slices of the Batch Scheduler cover the link list
exactly once, in order. -/
theorem chunks_flatten {α : Type} : ∀ l : List α, (chunks l).flatten = l
  | [] => rfl
  | [a] => rfl
  | [a, b] => rfl
  | [a, b, c] => rfl
  | [a, b, c, d] => rfl
  | [a, b, c, d, e] => rfl
  | a :: b :: c :: d :: e :: f :: rest => by
    simp only [chunks, List.flatten_cons, List.cons_append, List.nil_append]
    simp [chunks_flatten (f :: rest)]

/-- Collecting a batch distributes over concatenation of link lists. -/
theorem process_batch_append (nav : List Char → Nat → Option PageData)
    (a b : List (List Char)) :
    process_batch nav (a ++ b) = process_batch nav a ++ process_batch nav b := by
  simp [process_batch, List.reduceOption, List.filterMap_append]

/-- The scheduler's chunked output equals one pass over the whole list:
batching neither reorders nor drops successful records. -/
theorem run_output_eq_batch (nav : List Char → Nat → Option PageData) :
    ∀ links : List (List Char), run_output nav links = process_batch nav links
  | [] => by simp [run_output, chunks, process_batch]
  | [a] => by simp [run_output, chunks]
  | [a, b] => by simp [run_output, chunks]
  | [a, b, c] => by simp [run_output, chunks]
  | [a, b, c, d] => by simp [run_output, chunks]
  | [a, b, c, d, e] => by simp [run_output, chunks]
  | a :: b :: c :: d :: e :: f :: rest => by
    have ih := run_output_eq_batch nav (f :: rest)
    simp only [run_output, chunks, List.map_cons, List.flatten_cons] at ih ⊢
    rw [ih]
    have : a :: b :: c :: d :: e :: f :: rest = [a, b, c, d, e] ++ f :: rest := rfl
    rw [this, process_batch_append]

/-- A successful single-job fetch always records the fetched link as the
record's Url (line 524 of the source). -/
theorem result_url (nav : Nat → Option PageData) (link : List Char) (r : JobRecord)
    (h : (process_single_job nav link).result = some r) : r.Url = link := by
  unfold process_single_job at h
  rcases hn : nav_result nav 0 max_retries with ⟨c, n⟩
  rw [hn] at h
  cases c with
  | some tree => simp at h; rw [← h]; rfl
  | none => simp at h

/-- The Urls of the emitted records form a sublist of the fetched links. -/
theorem urls_sublist (nav : List Char → Nat → Option PageData) :
    ∀ links : List (List Char),
      ((run_output nav links).map JobRecord.Url).Sublist links := by
  intro links
  rw [run_output_eq_batch]
  induction links with
  | nil => simp [process_batch]
  | cons l ls ih =>
    simp only [process_batch, List.map_cons] at ih ⊢
    rcases h : (process_single_job (nav l) l).result with _ | r
    · simp only [List.reduceOption_cons_of_none]
      exact ih.cons l
    · simp only [List.reduceOption_cons_of_some, List.map_cons]
      rw [result_url (nav l) l r h]
      exact ih.cons₂ l

/-- Region computation from a raw location: the composite branch is dead
because a comma-free location makes City equal to Location itself. -/
theorem region_of_parse (loc : List Char) :
    region_of loc (parse_city_state loc).1 (parse_city_state loc).2 =
      if loc ≠ na then loc else na := by
  by_cases h : loc = na
  · subst h; decide
  · simp [region_of, h]

/-- First-match table lookup agrees with the if/elif chain, for any table. -/
theorem find_eq_chain (s : List Char) :
    ∀ ms : List Marker,
      (match ms.find? (marker_matches s) with
       | some m => m.code
       | none => "USD".data) = chain_lookup s ms
  | [] => rfl
  | m :: ms => by
    rcases h : marker_matches s m with _ | _ <;>
      simp [List.find?, h, chain_lookup, find_eq_chain s ms]

/-- When every navigation attempt fails, the retry loop uses its whole
budget and yields nothing. -/
theorem nav_result_all_fail (nav : Nat → Option PageData) (h : ∀ k, nav k = none) :
    ∀ r a, nav_result nav a r = (none, r)
  | 0, _ => rfl
  | r + 1, a => by simp [nav_result, h, nav_result_all_fail nav h r (a + 1)]

/-- The hard-coded if/elif chain of lines 429-474 is exactly the chain over
the ordered marker table (the combined `elif "₹" in salary or "INR" in
salary.upper()` branch corresponds to two consecutive table entries). -/
theorem chain_eq_detect (s : List Char) :
    chain_lookup s currency_markers = detect_currency s := by
  simp only [currency_markers, chain_lookup, marker_matches, detect_currency]
  by_cases h1 : containsStr s "₹".data <;>
    by_cases h2 : containsStr (upper s) "INR".data <;>
    simp [h1, h2]

/-! ## Claims -/

/-- C1, counterexample: the Link Collector performs no deduplication, so a
results page on which the same job URL is discovered twice (multiple anchors
to one listing) yields a produced link list with a duplicate and, when both
fetches succeed, two JobRecords with the same Url. -/
theorem C1_duplicate_urls_survive :
    ¬ (truncate_links ["/job-listing/a".data, "/job-listing/a".data]).Nodup ∧
    ¬ (((run_output ok_nav
          (truncate_links ["/job-listing/a".data, "/job-listing/a".data])).map
            JobRecord.Url).Nodup) := by
  constructor <;> decide

/-- C1, amended: the collector only truncates and absolutizes; when the
truncated, absolutized link list happens to be duplicate-free, no two
JobRecords of the run share a Url (each record's Url is its fetched link). -/
theorem C1_urls_nodup_of_links_nodup (nav : List Char → Nat → Option PageData)
    (links : List (List Char)) (h : (truncate_links links).Nodup) :
    ((run_output nav (truncate_links links)).map JobRecord.Url).Nodup :=
  (urls_sublist nav (truncate_links links)).nodup h

/-- Witness for the amended C1 at a concrete duplicate-free link list. -/
theorem C1_urls_nodup_witness :
    ((run_output ok_nav (truncate_links ["/x".data])).map JobRecord.Url).Nodup :=
  C1_urls_nodup_of_links_nodup ok_nav ["/x".data] (by decide)

/-- C2: evaluation of the years-of-experience extractor at the claim's two
texts.  The first yields "5+ years" as claimed; the second yields "3+ years",
not "3-5 years": the range branch tests for exactly two captured groups, but
the range pattern declares three groups (its optional `(of\s*)?`), so the
range formatting is unreachable. -/
theorem C2_extract_years_eval :
    extract_years "requires at least 5 years of experience".data = "5+ years".data ∧
    extract_years "3-5 years experience required".data = "3+ years".data := by
  constructor <;> decide

/-- C3, counterexample: on a link whose navigation always fails, the single
page resource that was opened is never released (there is no finally-style
release on the failure path). -/
theorem C3_page_not_released_on_failure :
    (process_single_job (fun _ => none) "x".data).pages_opened = 1 ∧
    ¬ (process_single_job (fun _ => none) "x".data).pages_closed = 1 := by
  constructor <;> decide

/-- C3, amended: every single-job fetch opens exactly one page resource, and
releases it exactly when the fetch/extract path succeeds; on failure the
page is left open. -/
theorem C3_release_iff_success (nav : Nat → Option PageData) (link : List Char) :
    (process_single_job nav link).pages_opened = 1 ∧
    (process_single_job nav link).pages_closed =
      (if (process_single_job nav link).result.isSome then 1 else 0) := by
  unfold process_single_job
  rcases nav_result nav 0 max_retries with ⟨c, n⟩
  cases c <;> simp

/-- C4: the scrape limit is the found count below 20 and min(60, found) from
20 on; the sample counts map as claimed; and the limit is applied by
truncating the ordered link list, earlier links preferred (the kept slice is
a prefix of the discovered list). -/
theorem C4_scrape_limit_spec :
    (∀ found : Nat, scrape_limit found = if found < 20 then found else min 60 found) ∧
    ([0, 5, 19, 20, 45, 60, 200].map scrape_limit = [0, 5, 19, 20, 45, 60, 60]) ∧
    (∀ links : List (List Char),
      truncate_links links = (links.take (scrape_limit links.length)).map absolutize ∧
      (links.take (scrape_limit links.length)) <+: links) := by
  refine ⟨fun found => ?_, by decide,
    fun links => ⟨rfl, ⟨links.drop (scrape_limit links.length), List.take_append_drop _ _⟩⟩⟩
  by_cases h : found < 20
  · have h2 : ¬ found ≥ 20 := by omega
    simp [scrape_limit, h, h2]
  · have h2 : found ≥ 20 := by omega
    simp [scrape_limit, h, h2]

/-- C5: a job whose navigation fails on every attempt costs exactly 3
navigation attempts, produces no record at all, and removing it from the
link list leaves the run's output unchanged (sibling jobs unaffected). -/
theorem C5_retry_exhaustion (nav : List Char → Nat → Option PageData)
    (pre post : List (List Char)) (bad : List Char) (h : ∀ k, nav bad k = none) :
    (process_single_job (nav bad) bad).attempts = 3 ∧
    (process_single_job (nav bad) bad).result = none ∧
    run_output nav (pre ++ bad :: post) = run_output nav (pre ++ post) := by
  have hnr : nav_result (nav bad) 0 max_retries = (none, 3) :=
    nav_result_all_fail (nav bad) h max_retries 0
  have hb : process_single_job (nav bad) bad = ⟨none, 3, 1, 0⟩ := by
    simp [process_single_job, hnr]
  refine ⟨by rw [hb], by rw [hb], ?_⟩
  rw [run_output_eq_batch, run_output_eq_batch]
  have hsplit : pre ++ bad :: post = pre ++ [bad] ++ post := by simp
  rw [hsplit, process_batch_append, process_batch_append, process_batch_append]
  have hempty : process_batch nav [bad] = [] := by
    simp [process_batch, hb]
  rw [hempty, List.append_nil]

/-- Witness for C5 at a concrete always-failing link between two healthy
ones. -/
theorem C5_retry_exhaustion_witness :
    (process_single_job (bad_b_nav "b".data) "b".data).attempts = 3 ∧
    (process_single_job (bad_b_nav "b".data) "b".data).result = none ∧
    run_output bad_b_nav (["a".data] ++ "b".data :: ["c".data]) =
      run_output bad_b_nav (["a".data] ++ ["c".data]) :=
  C5_retry_exhaustion bad_b_nav ["a".data] ["c".data] "b".data (fun _ => rfl)

/-- C6: currency detection is first-match-wins over the ordered marker
table, whose five symbol entries all precede its eighteen 3-letter-code
entries, defaulting to USD; in particular a salary containing both a dollar
sign and the substring EUR resolves to USD. -/
theorem C6_currency_first_match :
    (∀ s, detect_currency s = table_currency s) ∧
    ((currency_markers.take 5).all (fun m => m.isSymbol) = true ∧
     (currency_markers.drop 5).all (fun m => !m.isSymbol) = true) ∧
    detect_currency "Pay from $100K EUR".data = "USD".data := by
  refine ⟨fun s => ?_, by decide, by decide⟩
  rw [← chain_eq_detect s]
  unfold table_currency
  exact (find_eq_chain s currency_markers).symm

/-- C7: salary formatting — when the matched text has both the minimum and
the max salary pattern it becomes the range string (concretely,
"$80K - $120K" for the claim's example); with only the minimum pattern it
becomes the single value; otherwise it is the first 100 characters with the
first matching trailing location artifact stripped. -/
theorem C7_salary_formatting :
    extract_salary
        "Employer estimate: minimum salary is $80K and max salary is $120K".data =
      "$80K - $120K".data ∧
    (∀ t mn mx, scan_first min_at t = some mn → scan_first max_at t = some mx →
      extract_salary t = '$' :: (mn ++ "K - $".data ++ mx ++ "K".data)) ∧
    (∀ t mn, scan_first min_at t = some mn → scan_first max_at t = none →
      extract_salary t = '$' :: (mn ++ "K".data)) ∧
    (∀ t, scan_first min_at t = none →
      extract_salary t = strip_artifacts location_artifacts (t.take 100)) := by
  refine ⟨by decide, ?_, ?_, ?_⟩
  · intro t mn mx h1 h2
    simp [extract_salary, h1, h2]
  · intro t mn h1 h2
    simp [extract_salary, h1, h2]
  · intro t h1
    simp [extract_salary, h1]

/-- Witness for C7: the min-only branch and the artifact-stripping branch at
concrete inputs. -/
theorem C7_salary_formatting_witness :
    extract_salary "minimum salary is $70K".data = "$70K".data ∧
    extract_salary "Estimate 95K in Boston, MA area".data =
      strip_artifacts location_artifacts ("Estimate 95K in Boston, MA area".data.take 100) :=
  ⟨C7_salary_formatting.2.2.1 _ "70".data (by decide) (by decide),
   C7_salary_formatting.2.2.2 _ (by decide)⟩

/-- C8: the Batch Scheduler's batches concatenate back to the original link
list (every link exactly once, in order); 12 links give batch sizes 5, 5, 2;
and the chunked output equals the in-order concatenation of the batches'
successful records — equivalently one pass over the whole list, since batch
collection distributes over concatenation. -/
theorem C8_batch_partition :
    (∀ links : List (List Char), (chunks links).flatten = links) ∧
    ((chunks (List.range 12)).map List.length = [5, 5, 2]) ∧
    (∀ nav links, run_output nav links = process_batch nav links) ∧
    (∀ nav (a b : List (List Char)),
      process_batch nav (a ++ b) = process_batch nav a ++ process_batch nav b) :=
  ⟨fun links => chunks_flatten links, by decide,
   fun nav links => run_output_eq_batch nav links,
   fun nav a b => process_batch_append nav a b⟩

/-- C9: the Location Filter is idempotent — filtering an already-filtered
record list with the same place returns it unchanged. -/
theorem C9_filter_idempotent (jobs : List JobRecord) (place : List Char) :
    filter_jobs_by_location (filter_jobs_by_location jobs place) place =
      filter_jobs_by_location jobs place := by
  unfold filter_jobs_by_location
  rcases h : expected_keywords place with _ | kws
  · by_cases hj : jobs.isEmpty <;> simp [hj]
  · by_cases hj : jobs.isEmpty
    · simp [hj]
    · simp only [hj, Bool.false_eq_true, if_false]
      by_cases hf : (jobs.filter (matches_job kws)).isEmpty
      · simp [hf]
      · simp only [hf, Bool.false_eq_true, if_false]
        rw [List.filter_filter]
        simp

/-- C10: the extractor's Region always equals its Location when that is not
the sentinel and the sentinel otherwise — the composite City/State branch of
the Region derivation can never fire, because a sentinel Location parses to
a sentinel City. -/
theorem C10_region_equals_location :
    (∀ (tree : PageData) (link : List Char),
      (extract_job_data tree link).Region =
        if (extract_job_data tree link).Location ≠ na
        then (extract_job_data tree link).Location else na) ∧
    (∀ loc : List Char,
      ¬ (loc = na ∧ (parse_city_state loc).1 ≠ na ∧ (parse_city_state loc).2 ≠ na)) := by
  constructor
  · intro tree link
    exact region_of_parse (first_or_na (first_nonempty tree.location_selectors))
  · rintro loc ⟨h1, h2, _⟩
    subst h1
    exact h2 (by decide)

end GD
